import Mathlib

/-!
# csct-down: uptime-ledger engine, formalised

Shallow embedding of the status-ledger code of the `csct-down` repository.

* Timestamps are modelled as `Int`, milliseconds since the epoch (the value of
  `Date.getTime()` / `Date.now()`); a JS `null` / absent timestamp is `none`.
* Second-valued quantities (`deltaSeconds`, the accumulated totals, streaks)
  are modelled as `ℚ`, since the source divides millisecond differences by
  1000 exactly.
* The JS idiom `x || 0` on a number is modelled by `jsOr0` / `jsOrN`
  (identity except that `0` maps to `0`; `NaN` does not arise in the model
  because stored timestamps are modelled as already-parsed integers, making
  the source's `Number.isNaN` guard vacuous).
* `Date.now()` inside `computeDurations` (the incident `id`) is an ambient
  wall-clock read; it is made explicit as the extra argument `wallClock`.
-/

/-- The `lastStatus` classification strings of the ledger. -/
inductive Status where
  | unknown : Status
  | online : Status
  | offline : Status
deriving DecidableEq, Repr

/-- A recorded downtime incident, from `ping_csct.js` (`src/unnamed/part_003`):
`{startTime, endTime, duration: Math.round(seconds), id: Date.now()}`. -/
structure Incident where
  startTime : Int
  endTime : Int
  duration : Int
  id : Int
deriving DecidableEq, Repr

/-- The persisted status ledger (`status.json` / `localStorage` record). -/
@[ext]
structure Ledger where
  lastOnline : Option Int
  lastStatus : Status
  lastStatusChange : Option Int
  currentStreakSeconds : ℚ
  totalUpSeconds : ℚ
  totalDownSeconds : ℚ
  lastChecked : Option Int
  downtimeIncidents : List Incident
  totalOutages : Nat
  latency : Option Int
  error : Option String
deriving DecidableEq, Repr

/-- JS `q || 0` on a rational number (identity; `0 || 0 = 0`). -/
def jsOr0 (q : ℚ) : ℚ := if q = 0 then 0 else q

/-- JS `n || 0` on a natural number (identity; `0 || 0 = 0`). -/
def jsOrN (n : Nat) : Nat := if n = 0 then 0 else n

/-- JS `Math.round`: round half toward positive infinity. -/
def jsRound (q : ℚ) : Int := ⌊q + 1 / 2⌋

/-- `deltaSeconds = Math.max(0, (now.getTime() - lastChecked.getTime()) / 1000)`,
and `0` when `lastChecked` is absent (`part_003` lines 46–53). -/
def deltaSecondsFn (lastChecked : Option Int) (now : Int) : ℚ :=
  match lastChecked with
  | none => 0
  | some t => max 0 (((now : ℚ) - (t : ℚ)) / 1000)

/-- The default ledger returned by `readStatusFile` when `status.json` is
absent or unparsable (`part_003` lines 24–34); `latency` and `error` are
absent (`undefined`) there, modelled as `none`. -/
def defaultStatus : Ledger :=
  { lastOnline := none
    lastStatus := .unknown
    lastStatusChange := none
    currentStreakSeconds := 0
    totalUpSeconds := 0
    totalDownSeconds := 0
    lastChecked := none
    downtimeIncidents := []
    totalOutages := 0
    latency := none
    error := none }

/-- `computeDurations(prevStatus, now, isOnline)` of the backend pinger
(`src/unnamed/part_003` lines 42–110).  The sequential mutations of
`updated` are modelled by the chain `u2`, `u3`, `u4`, `u5`; `wallClock` is
the value returned by the `Date.now()` call on line 81 (the incident id). -/
def computeDurations (prev : Ledger) (now : Int) (isOnline : Bool)
    (wallClock : Int) : Ledger :=
  let deltaSeconds := deltaSecondsFn prev.lastChecked now
  -- accumulate into total up/down counters when the previous status was known
  let u2 :=
    if prev.lastStatus = .online then
      { prev with totalUpSeconds := jsOr0 prev.totalUpSeconds + deltaSeconds }
    else if prev.lastStatus = .offline then
      { prev with totalDownSeconds := jsOr0 prev.totalDownSeconds + deltaSeconds }
    else prev
  let newStatus : Status := if isOnline then .online else .offline
  let u3 :=
    if newStatus ≠ prev.lastStatus then
      -- status changed: reset streak and timestamp
      let a := { u2 with lastStatus := newStatus, lastStatusChange := some now }
      -- if coming back online from offline, record the downtime incident
      let b :=
        if isOnline then
          if prev.lastStatus = .offline then
            match prev.lastStatusChange with
            | some downtimeStart =>
              let downtimeDuration : ℚ :=
                max 0 (((now : ℚ) - (downtimeStart : ℚ)) / 1000)
              if 0 < downtimeDuration then
                { a with
                  downtimeIncidents :=
                    { startTime := downtimeStart
                      endTime := now
                      duration := jsRound downtimeDuration
                      id := wallClock }
                    :: prev.downtimeIncidents.take 9
                  totalOutages := jsOrN prev.totalOutages + 1 }
              else a
            | none => a
          else a
        else a
      { b with currentStreakSeconds := 0 }
    else
      { u2 with currentStreakSeconds := jsOr0 prev.currentStreakSeconds + deltaSeconds }
  let u4 := if isOnline then { u3 with lastOnline := some now } else u3
  -- "ensure arrays exist": `updated.downtimeIncidents || []`, `|| 0`
  let u5 := { u4 with totalOutages := jsOrN u4.totalOutages }
  { u5 with lastChecked := some now }

/-- `computeDurations` of the frontend `CSCTStatus` class
(`src/is-csct.status.js` lines 141–179): identical to the backend version
except that it has no incident-recording block and no array-defaulting;
all other fields (incidents, outage count, latency, error) ride along
unchanged via the object spread. -/
def computeDurationsFrontend (prev : Ledger) (now : Int) (isOnline : Bool) :
    Ledger :=
  let deltaSeconds := deltaSecondsFn prev.lastChecked now
  let u2 :=
    if prev.lastStatus = .online then
      { prev with totalUpSeconds := jsOr0 prev.totalUpSeconds + deltaSeconds }
    else if prev.lastStatus = .offline then
      { prev with totalDownSeconds := jsOr0 prev.totalDownSeconds + deltaSeconds }
    else prev
  let newStatus : Status := if isOnline then .online else .offline
  let u3 :=
    if newStatus ≠ prev.lastStatus then
      { u2 with lastStatus := newStatus, lastStatusChange := some now,
                currentStreakSeconds := 0 }
    else
      { u2 with currentStreakSeconds := jsOr0 prev.currentStreakSeconds + deltaSeconds }
  let u4 := if isOnline then { u3 with lastOnline := some now } else u3
  { u4 with lastChecked := some now }

/-- Outcome of the frontend `fetch` probe in `checkServerStatus`
(`src/is-csct.status.js` lines 99–139): either the fetch resolved (with a
measured latency) or it threw (`AbortError` for the 5 s timeout, anything
else mapped to "connection failed"). -/
inductive ProbeOutcome where
  | success (latencyMs : Int) : ProbeOutcome
  | failure (aborted : Bool) : ProbeOutcome
deriving DecidableEq, Repr

/-- One frontend probe cycle, `checkServerStatus` (`src/is-csct.status.js`
lines 99–139) without the UI/storage side effects: on success it runs
`computeDurations(prev, now, true)` and sets `latency`; on failure it runs
`computeDurations(prev, now, false)`, sets `latency = null` and sets
`error`.  Note that the success path never clears `error`. -/
def checkServerStatus (prev : Ledger) (now : Int) (probe : ProbeOutcome) :
    Ledger :=
  match probe with
  | .success lat =>
    let s := computeDurationsFrontend prev now true
    { s with latency := some lat }
  | .failure aborted =>
    let s := computeDurationsFrontend prev now false
    { s with latency := none
             error := some (if aborted then "timeout" else "connection failed") }

/-- Resolution of the backend SSH `pingHost` (`src/unnamed/part_002` lines
691–715): `{online: true, latency, error: null}` on connect, or
`{online: false, latency: null, error: message}` on timeout or socket
error. -/
inductive PingResult where
  | connected (latencyMs : Int) : PingResult
  | failed (errMsg : String) : PingResult
deriving DecidableEq, Repr

/-- One backend probe cycle, `main` of the SSH pinger
(`src/unnamed/part_002` lines 717–729) without the file and console side
effects: it runs the incident-recording `computeDurations`, then copies the
measured latency onto the ledger only under the `if (latency !== null)`
guard — so an offline cycle keeps whatever stale `latency` the ledger
already carried — and it never writes an `error` field at all.  (The
`portTest` diagnostic it also attaches is not part of the spec's ledger
data model and is read by nothing modelled here.) -/
def backendCycle (prev : Ledger) (now : Int) (r : PingResult)
    (wallClock : Int) : Ledger :=
  match r with
  | .connected lat =>
    let s := computeDurations prev now true wallClock
    { s with latency := some lat }
  | .failed _ =>
    computeDurations prev now false wallClock

/-- State of the backing store as seen by `readStatusFile` (`part_003`
lines 18–36): the read can throw (file absent), the parse can throw
(corrupt text), or a ledger is obtained.  The fallible
`readFileSync` + `JSON.parse` pipeline is abstracted into this sum. -/
inductive StoreState where
  | absent : StoreState
  | corrupt (raw : String) : StoreState
  | valid (parsed : Ledger) : StoreState

/-- `readStatusFile` (`part_003` lines 18–36): return the parsed ledger, and
on any exception (absent or corrupt store) the default structure. -/
def readStatusFile : StoreState → Ledger
  | .valid l => l
  | .absent => defaultStatus
  | .corrupt _ => defaultStatus

/-- One scheduled invocation of the backend pinger, as seen by the engine:
a timestamp `now`, the probe verdict, and the wall clock at the
`Date.now()` call. -/
structure Step where
  now : Int
  online : Bool
  wallClock : Int
deriving DecidableEq, Repr

/-- Apply one step of the backend engine. -/
def applyStep (l : Ledger) (s : Step) : Ledger :=
  computeDurations l s.now s.online s.wallClock

/-- Run a whole sequence of probe cycles. -/
def runSteps (l : Ledger) (steps : List Step) : Ledger :=
  steps.foldl applyStep l

/-- The inter-check deltas of a run, as the spec describes them: at each
step, `max(0, now_i − lastChecked_{i-1})` seconds, where the previous
`lastChecked` is the preceding step's `now` (or the given start value for
the first step). -/
def traceDeltas : Option Int → List Step → ℚ
  | _, [] => 0
  | lc, s :: rest => deltaSecondsFn lc s.now + traceDeltas (some s.now) rest

/-- The condition under which `computeDurations` records an incident:
observation online, previous status offline, previous `lastStatusChange`
present and strictly before `now`. -/
def incidentCondB (prev : Ledger) (now : Int) (b : Bool) : Bool :=
  b && prev.lastStatus == .offline &&
    (match prev.lastStatusChange with
     | some t => decide (t < now)
     | none => false)

/-- The incident that `computeDurations` records when `incidentCondB`
holds. -/
def newIncident (prev : Ledger) (now wallClock : Int) : Incident :=
  { startTime := prev.lastStatusChange.getD 0
    endTime := now
    duration := jsRound (((now : ℚ) - ((prev.lastStatusChange.getD 0 : Int) : ℚ)) / 1000)
    id := wallClock }

/-- `prev.lastChecked`, when present, is at most `now` (decidable form of
"now is not earlier than the previous check"). -/
def checkedLE (lastChecked : Option Int) (now : Int) : Bool :=
  match lastChecked with
  | some t => decide (t ≤ now)
  | none => true

/-- Erase incident ids, keeping every other ledger field. -/
def stripIds (l : Ledger) : Ledger :=
  { l with downtimeIncidents := l.downtimeIncidents.map fun i => { i with id := 0 } }

section Helpers

lemma jsOr0_eq (q : ℚ) : jsOr0 q = q := by
  unfold jsOr0; split <;> simp_all

lemma jsOrN_eq (n : Nat) : jsOrN n = n := by
  unfold jsOrN; split <;> simp_all

lemma deltaSecondsFn_nonneg (lc : Option Int) (now : Int) :
    0 ≤ deltaSecondsFn lc now := by
  unfold deltaSecondsFn
  cases lc with
  | none => simp
  | some t => exact le_max_left 0 _

lemma deltaSecondsFn_self (now : Int) : deltaSecondsFn (some now) now = 0 := by
  simp [deltaSecondsFn]

end Helpers

section ClosedForm

/-- Positivity of the clamped downtime duration is exactly strictness of the
recovery time. -/
lemma downtimeDuration_pos_iff (t now : Int) :
    0 < max 0 (((now : ℚ) - (t : ℚ)) / 1000) ↔ t < now := by
  rw [lt_max_iff]
  constructor
  · rintro (h | h)
    · exact absurd h (lt_irrefl 0)
    · rw [lt_div_iff₀ (by norm_num : (0 : ℚ) < 1000)] at h
      have : (t : ℚ) < now := by linarith
      exact_mod_cast this
  · intro h
    right
    rw [lt_div_iff₀ (by norm_num : (0 : ℚ) < 1000)]
    have : (t : ℚ) < now := by exact_mod_cast h
    linarith

/-- Under `incidentCondB`, the clamp in the recorded duration is inactive. -/
lemma max_eq_of_lt (t now : Int) (h : t < now) :
    max 0 (((now : ℚ) - (t : ℚ)) / 1000) = ((now : ℚ) - (t : ℚ)) / 1000 := by
  apply max_eq_right
  rw [div_nonneg_iff]
  left
  constructor
  · have : (t : ℚ) ≤ now := by exact_mod_cast h.le
    linarith
  · norm_num

/-- Closed form of the backend `computeDurations`: each output field as a
function of the inputs. -/
lemma computeDurations_eq (prev : Ledger) (now : Int) (b : Bool) (wc : Int) :
    computeDurations prev now b wc =
      { lastOnline := if b then some now else prev.lastOnline
        lastStatus := if b then .online else .offline
        lastStatusChange :=
          if (if b then Status.online else .offline) ≠ prev.lastStatus then some now
          else prev.lastStatusChange
        currentStreakSeconds :=
          if (if b then Status.online else .offline) ≠ prev.lastStatus then 0
          else prev.currentStreakSeconds + deltaSecondsFn prev.lastChecked now
        totalUpSeconds :=
          if prev.lastStatus = .online then
            prev.totalUpSeconds + deltaSecondsFn prev.lastChecked now
          else prev.totalUpSeconds
        totalDownSeconds :=
          if prev.lastStatus = .offline then
            prev.totalDownSeconds + deltaSecondsFn prev.lastChecked now
          else prev.totalDownSeconds
        lastChecked := some now
        downtimeIncidents :=
          if incidentCondB prev now b then
            newIncident prev now wc :: prev.downtimeIncidents.take 9
          else prev.downtimeIncidents
        totalOutages :=
          if incidentCondB prev now b then prev.totalOutages + 1
          else prev.totalOutages
        latency := prev.latency
        error := prev.error } := by
  unfold computeDurations incidentCondB newIncident
  cases b <;> cases hs : prev.lastStatus <;>
    cases hc : prev.lastStatusChange <;>
    simp_all [jsOr0_eq, jsOrN_eq]
  all_goals {
    rename_i t
    by_cases ht : t < now
    · simp [ht, downtimeDuration_pos_iff, max_eq_of_lt t now ht, jsOrN_eq]
    · simp [ht, downtimeDuration_pos_iff, jsOrN_eq]
  }

/-- Closed form of the frontend `computeDurations`. -/
lemma computeDurationsFrontend_eq (prev : Ledger) (now : Int) (b : Bool) :
    computeDurationsFrontend prev now b =
      { lastOnline := if b then some now else prev.lastOnline
        lastStatus := if b then .online else .offline
        lastStatusChange :=
          if (if b then Status.online else .offline) ≠ prev.lastStatus then some now
          else prev.lastStatusChange
        currentStreakSeconds :=
          if (if b then Status.online else .offline) ≠ prev.lastStatus then 0
          else prev.currentStreakSeconds + deltaSecondsFn prev.lastChecked now
        totalUpSeconds :=
          if prev.lastStatus = .online then
            prev.totalUpSeconds + deltaSecondsFn prev.lastChecked now
          else prev.totalUpSeconds
        totalDownSeconds :=
          if prev.lastStatus = .offline then
            prev.totalDownSeconds + deltaSecondsFn prev.lastChecked now
          else prev.totalDownSeconds
        lastChecked := some now
        downtimeIncidents := prev.downtimeIncidents
        totalOutages := prev.totalOutages
        latency := prev.latency
        error := prev.error } := by
  unfold computeDurationsFrontend
  cases b <;> cases hs : prev.lastStatus <;> simp_all [jsOr0_eq]

end ClosedForm

section SequenceLemmas

/-- After any application of the engine, `lastChecked` is the step's `now`. -/
lemma lastChecked_computeDurations (prev : Ledger) (now : Int) (b : Bool)
    (wc : Int) : (computeDurations prev now b wc).lastChecked = some now := by
  rw [computeDurations_eq]

/-- After any application of the engine, `lastStatus` is determined by the
observation alone. -/
lemma lastStatus_computeDurations (prev : Ledger) (now : Int) (b : Bool)
    (wc : Int) :
    (computeDurations prev now b wc).lastStatus =
      (if b then Status.online else .offline) := by
  rw [computeDurations_eq]

/-- On a ledger whose `unknown` state can only coexist with an absent
`lastChecked`, one engine step grows the combined totals by exactly the
inter-check delta. -/
lemma totals_computeDurations (prev : Ledger) (now : Int) (b : Bool) (wc : Int)
    (h : prev.lastStatus = .unknown → prev.lastChecked = none) :
    (computeDurations prev now b wc).totalUpSeconds +
        (computeDurations prev now b wc).totalDownSeconds =
      prev.totalUpSeconds + prev.totalDownSeconds +
        deltaSecondsFn prev.lastChecked now := by
  rw [computeDurations_eq]
  cases hs : prev.lastStatus <;> simp_all [deltaSecondsFn] <;> ring

/-- The trace-delta sum is non-negative. -/
lemma traceDeltas_nonneg (lc : Option Int) (steps : List Step) :
    0 ≤ traceDeltas lc steps := by
  induction steps generalizing lc with
  | nil => simp [traceDeltas]
  | cons s rest ih =>
    have := deltaSecondsFn_nonneg lc s.now
    have := ih (some s.now)
    simp only [traceDeltas]
    linarith

/-- Combined totals over a run, for any start ledger satisfying the
`unknown → unchecked` invariant. -/
lemma runSteps_totals (steps : List Step) (l : Ledger)
    (h : l.lastStatus = .unknown → l.lastChecked = none) :
    (runSteps l steps).totalUpSeconds + (runSteps l steps).totalDownSeconds =
      l.totalUpSeconds + l.totalDownSeconds + traceDeltas l.lastChecked steps := by
  induction steps generalizing l with
  | nil => simp [runSteps, traceDeltas]
  | cons s rest ih =>
    have hstep := totals_computeDurations l s.now s.online s.wallClock h
    have hinv : (applyStep l s).lastStatus = .unknown →
        (applyStep l s).lastChecked = none := by
      intro hu
      rw [applyStep, lastStatus_computeDurations] at hu
      exfalso; revert hu; split <;> simp
    have hlc : (applyStep l s).lastChecked = some s.now :=
      lastChecked_computeDurations l s.now s.online s.wallClock
    have hrec := ih (applyStep l s) hinv
    simp only [runSteps, List.foldl_cons] at *
    rw [hrec, hlc]
    simp only [traceDeltas, applyStep]
    rw [applyStep] at *
    linarith

/-- The `unknown → unchecked` invariant holds along every run from the
default ledger. -/
lemma runSteps_invariant (steps : List Step) (l : Ledger)
    (h : l.lastStatus = .unknown → l.lastChecked = none) :
    (runSteps l steps).lastStatus = .unknown →
      (runSteps l steps).lastChecked = none := by
  induction steps generalizing l with
  | nil => simpa [runSteps] using h
  | cons s rest ih =>
    simp only [runSteps, List.foldl_cons]
    apply ih
    intro hu
    rw [applyStep, lastStatus_computeDurations] at hu
    exfalso; revert hu; split <;> simp

/-- Runs compose over list append. -/
lemma runSteps_append (l : Ledger) (xs ys : List Step) :
    runSteps l (xs ++ ys) = runSteps (runSteps l xs) ys := by
  simp [runSteps, List.foldl_append]

end SequenceLemmas

section SampleLedgers

/-- A ledger currently classified online, just checked at time 0. -/
def sampleOnline : Ledger :=
  { defaultStatus with
      lastStatus := .online
      lastOnline := some 0
      lastStatusChange := some 0
      lastChecked := some 0 }

/-- A ledger currently classified offline since time 0, checked at time 0,
carrying the probe error of the failed check. -/
def sampleOffline : Ledger :=
  { defaultStatus with
      lastStatus := .offline
      lastStatusChange := some 0
      lastChecked := some 0
      error := some "timeout" }

end SampleLedgers

/-- C10: every ledger produced by `computeDurations` has `lastStatus` equal
to `online` or `offline` (it is the observation's classification), never
`unknown`; `unknown` occurs only in the default ledger before the first
check. -/
theorem applied_lastStatus_never_unknown (prev : Ledger) (now : Int)
    (b : Bool) (wc : Int) :
    (computeDurations prev now b wc).lastStatus ≠ Status.unknown ∧
    (computeDurations prev now b wc).lastStatus =
      (if b then Status.online else .offline) ∧
    defaultStatus.lastStatus = Status.unknown := by
  refine ⟨?_, lastStatus_computeDurations prev now b wc, rfl⟩
  rw [lastStatus_computeDurations]
  split <;> simp

/-- C7: the engine is a total function; the inter-check delta is
`max(0, now − lastChecked)`, zero when `lastChecked` is absent, and never
negative, so no call can decrease the accumulated totals, nor the streak on
a non-transition step; the very first call on the default ledger leaves the
totals at zero, records no incident and counts no outage. -/
theorem engine_total_never_negative (prev : Ledger) (now : Int) (b : Bool)
    (wc : Int) :
    0 ≤ deltaSecondsFn prev.lastChecked now ∧
    deltaSecondsFn none now = 0 ∧
    prev.totalUpSeconds ≤ (computeDurations prev now b wc).totalUpSeconds ∧
    prev.totalDownSeconds ≤ (computeDurations prev now b wc).totalDownSeconds ∧
    ((if b then Status.online else .offline) = prev.lastStatus →
      prev.currentStreakSeconds ≤
        (computeDurations prev now b wc).currentStreakSeconds) ∧
    (computeDurations defaultStatus now b wc).totalUpSeconds = 0 ∧
    (computeDurations defaultStatus now b wc).totalDownSeconds = 0 ∧
    (computeDurations defaultStatus now b wc).downtimeIncidents = [] ∧
    (computeDurations defaultStatus now b wc).totalOutages = 0 := by
  have hd := deltaSecondsFn_nonneg prev.lastChecked now
  have hdef : incidentCondB defaultStatus now b = false := by
    cases b <;> simp [incidentCondB, defaultStatus]
  refine ⟨hd, rfl, ?_, ?_, ?_, ?_, ?_, ?_, ?_⟩ <;>
    rw [computeDurations_eq] <;> dsimp only
  · split_ifs <;> linarith
  · split_ifs <;> linarith
  · intro hs
    rw [if_neg (not_ne_iff.mpr hs)]
    linarith
  · simp [defaultStatus, deltaSecondsFn]
  · simp [defaultStatus, deltaSecondsFn]
  · simp only [hdef]
    simp [defaultStatus]
  · simp only [hdef]
    simp [defaultStatus]

/-- Witness for C7 at a concrete input (its only hypothesis is the inner
non-transition premise, discharged at `sampleOnline` with an online
observation). -/
theorem engine_total_never_negative_witness :
    0 ≤ deltaSecondsFn sampleOnline.lastChecked 60000 ∧
    sampleOnline.currentStreakSeconds ≤
      (computeDurations sampleOnline 60000 true 0).currentStreakSeconds :=
  ⟨(engine_total_never_negative sampleOnline 60000 true 0).1,
   (engine_total_never_negative sampleOnline 60000 true 0).2.2.2.2.1 (by decide)⟩

/-- C1: when `now` is not earlier than the previous check, an incident is
recorded iff the transition is offline→online with `prev.lastStatusChange`
present and strictly before `now`; the recorded incident has
`startTime = prev.lastStatusChange`, `endTime = now` and
`duration = round((now − startTime)/1000)`, it is prepended, and
`totalOutages` grows by exactly 1 in that case and is unchanged
otherwise. -/
theorem incident_recorded_iff (prev : Ledger) (now wc : Int) (b : Bool)
    (_h : checkedLE prev.lastChecked now = true) :
    (incidentCondB prev now b = true ↔
      (b = true ∧ prev.lastStatus = .offline ∧
        ∃ t, prev.lastStatusChange = some t ∧ t < now)) ∧
    (incidentCondB prev now b = true ↔
      (computeDurations prev now b wc).totalOutages = prev.totalOutages + 1) ∧
    (incidentCondB prev now b = true →
      (computeDurations prev now b wc).downtimeIncidents =
        newIncident prev now wc :: prev.downtimeIncidents.take 9 ∧
      ∃ t, prev.lastStatusChange = some t ∧
        newIncident prev now wc =
          { startTime := t, endTime := now,
            duration := jsRound (((now : ℚ) - (t : ℚ)) / 1000), id := wc }) ∧
    (incidentCondB prev now b = false →
      (computeDurations prev now b wc).downtimeIncidents =
        prev.downtimeIncidents ∧
      (computeDurations prev now b wc).totalOutages = prev.totalOutages) := by
  refine ⟨?_, ?_, ?_, ?_⟩
  · unfold incidentCondB
    cases hc : prev.lastStatusChange <;> cases b <;> simp
  · rw [computeDurations_eq]
    dsimp only
    constructor
    · intro hi; rw [if_pos hi]
    · intro he
      by_contra hi
      rw [if_neg (by simp_all)] at he
      omega
  · intro hi
    rw [computeDurations_eq]
    dsimp only
    rw [if_pos hi]
    refine ⟨rfl, ?_⟩
    unfold incidentCondB at hi
    cases hc : prev.lastStatusChange with
    | none => simp [hc] at hi
    | some t => exact ⟨t, rfl, by simp [newIncident, hc]⟩
  · intro hi
    rw [computeDurations_eq]
    dsimp only
    rw [if_neg (by simp [hi]), if_neg (by simp [hi])]
    exact ⟨rfl, rfl⟩

/-- Witness for C1: a concrete offline→online recovery one minute after the
outage began records the incident and bumps the outage counter. -/
theorem incident_recorded_iff_witness :
    checkedLE sampleOffline.lastChecked 60000 = true ∧
    (computeDurations sampleOffline 60000 true 7).totalOutages =
      sampleOffline.totalOutages + 1 ∧
    (computeDurations sampleOffline 60000 true 7).downtimeIncidents =
      newIncident sampleOffline 60000 7 ::
        sampleOffline.downtimeIncidents.take 9 :=
  ⟨by decide,
   ((incident_recorded_iff sampleOffline 60000 7 true (by decide)).2.1).mp
     (by decide),
   ((incident_recorded_iff sampleOffline 60000 7 true (by decide)).2.2.1
     (by decide)).1⟩

/-- C6: a repeated tick is a no-op — applying the engine again with the
same `now` and the same observation computes a zero delta and returns the
first result unchanged in every field (whatever the second call's wall
clock reads, since no incident can be recorded). -/
theorem noop_tick_idempotent (prev : Ledger) (now : Int) (b : Bool)
    (wc wc2 : Int) :
    deltaSecondsFn (computeDurations prev now b wc).lastChecked now = 0 ∧
    computeDurations (computeDurations prev now b wc) now b wc2 =
      computeDurations prev now b wc := by
  constructor
  · rw [lastChecked_computeDurations, deltaSecondsFn_self]
  · rw [computeDurations_eq (computeDurations prev now b wc) now b wc2,
        computeDurations_eq prev now b wc]
    cases b <;>
      simp [incidentCondB, deltaSecondsFn_self, deltaSecondsFn]

/-- C2: starting from the default ledger, over any sequence of engine
calls with non-decreasing timestamps the combined totals equal exactly the
sum of the inter-check deltas `max(0, now_i − lastChecked_{i-1})`, and that
sum only grows along the sequence (the totals after any prefix are at most
the totals after the whole sequence). -/
theorem totals_equal_delta_sum (steps : List Step)
    (h : List.Chain' (· ≤ ·) (steps.map Step.now)) :
    (runSteps defaultStatus steps).totalUpSeconds +
        (runSteps defaultStatus steps).totalDownSeconds =
      traceDeltas none steps ∧
    (∀ pre suf, steps = pre ++ suf →
      (runSteps defaultStatus pre).totalUpSeconds +
          (runSteps defaultStatus pre).totalDownSeconds ≤
        (runSteps defaultStatus steps).totalUpSeconds +
          (runSteps defaultStatus steps).totalDownSeconds) := by
  have hdef : defaultStatus.lastStatus = .unknown →
      defaultStatus.lastChecked = none := fun _ => rfl
  have hmain := runSteps_totals steps defaultStatus hdef
  rw [show defaultStatus.totalUpSeconds = 0 from rfl,
      show defaultStatus.totalDownSeconds = 0 from rfl,
      show defaultStatus.lastChecked = none from rfl] at hmain
  constructor
  · rw [hmain]; ring
  · intro pre suf hps
    subst hps
    rw [runSteps_append]
    have hinvp := runSteps_invariant pre defaultStatus hdef
    have h2 := runSteps_totals suf (runSteps defaultStatus pre) hinvp
    have h3 := traceDeltas_nonneg (runSteps defaultStatus pre).lastChecked suf
    linarith

/-- A concrete three-step run: one minute online, then a check a minute
later, then an offline observation another minute later. -/
def sampleSteps : List Step :=
  [⟨0, true, 0⟩, ⟨60000, true, 1⟩, ⟨120000, false, 2⟩]

/-- Witness for C2 on `sampleSteps`: the timestamps are non-decreasing and
both conjuncts hold, the second instantiated at the split after the first
step. -/
theorem totals_equal_delta_sum_witness :
    List.Chain' (· ≤ ·) (sampleSteps.map Step.now) ∧
    (runSteps defaultStatus sampleSteps).totalUpSeconds +
        (runSteps defaultStatus sampleSteps).totalDownSeconds =
      traceDeltas none sampleSteps ∧
    (runSteps defaultStatus [⟨0, true, 0⟩]).totalUpSeconds +
        (runSteps defaultStatus [⟨0, true, 0⟩]).totalDownSeconds ≤
      (runSteps defaultStatus sampleSteps).totalUpSeconds +
        (runSteps defaultStatus sampleSteps).totalDownSeconds :=
  ⟨by norm_num [sampleSteps, List.chain'_cons],
   (totals_equal_delta_sum sampleSteps
     (by norm_num [sampleSteps, List.chain'_cons])).1,
   (totals_equal_delta_sum sampleSteps
     (by norm_num [sampleSteps, List.chain'_cons])).2
     [⟨0, true, 0⟩] [⟨60000, true, 1⟩, ⟨120000, false, 2⟩] rfl⟩

/-- A ledger holding one retained incident but a zeroed outage counter:
structurally possible input on which the claimed `totalOutages ≥ length`
conclusion fails. -/
def sampleUntracked : Ledger :=
  { defaultStatus with downtimeIncidents := [⟨0, 1000, 1, 0⟩] }

/-- C4 counterexample: with only the `length ≤ 10` hypothesis of the
claim, the output can violate `totalOutages ≥ downtimeIncidents.length` —
a previous ledger with one retained incident but a zero outage counter
passes through a non-incident step unchanged. -/
theorem outages_ge_incidents_counterexample :
    sampleUntracked.downtimeIncidents.length ≤ 10 ∧
    ¬((computeDurations sampleUntracked 0 true 0).downtimeIncidents.length ≤
        (computeDurations sampleUntracked 0 true 0).totalOutages) := by
  decide

/-- C4 amended: assuming additionally that the previous ledger already
satisfies `totalOutages ≥ downtimeIncidents.length` (as every ledger the
engine produces from the defaults does), one step keeps the incident list
at length ≤ 10, prepends the new incident over at most the first 9 old
entries exactly when one is recorded, and preserves
`totalOutages ≥ downtimeIncidents.length`. -/
theorem incidents_bounded_amended (prev : Ledger) (now wc : Int) (b : Bool)
    (hlen : prev.downtimeIncidents.length ≤ 10)
    (hinv : prev.downtimeIncidents.length ≤ prev.totalOutages) :
    (computeDurations prev now b wc).downtimeIncidents.length ≤ 10 ∧
    (incidentCondB prev now b = true →
      (computeDurations prev now b wc).downtimeIncidents =
        newIncident prev now wc :: prev.downtimeIncidents.take 9) ∧
    (incidentCondB prev now b = false →
      (computeDurations prev now b wc).downtimeIncidents =
        prev.downtimeIncidents) ∧
    (computeDurations prev now b wc).downtimeIncidents.length ≤
      (computeDurations prev now b wc).totalOutages := by
  rw [computeDurations_eq]
  dsimp only
  by_cases hi : incidentCondB prev now b = true
  · rw [if_pos hi, if_pos hi]
    refine ⟨?_, fun _ => rfl, fun hf => absurd hi (by simp [hf]), ?_⟩
    · simp only [List.length_cons, List.length_take]
      omega
    · simp only [List.length_cons, List.length_take]
      omega
  · rw [if_neg hi, if_neg hi]
    exact ⟨hlen, fun ht => absurd ht hi, fun _ => rfl, hinv⟩

/-- Witness for the amended C4 at a concrete recovery step from
`sampleOffline` (both hypotheses hold there with an empty incident
list). -/
theorem incidents_bounded_amended_witness :
    sampleOffline.downtimeIncidents.length ≤ 10 ∧
    sampleOffline.downtimeIncidents.length ≤ sampleOffline.totalOutages ∧
    (computeDurations sampleOffline 60000 true 7).downtimeIncidents.length ≤ 10 ∧
    (computeDurations sampleOffline 60000 true 7).downtimeIncidents.length ≤
      (computeDurations sampleOffline 60000 true 7).totalOutages :=
  ⟨by decide, by decide,
   (incidents_bounded_amended sampleOffline 60000 7 true (by decide)
     (by decide)).1,
   (incidents_bounded_amended sampleOffline 60000 7 true (by decide)
     (by decide)).2.2.2⟩

/-- C5 counterexample: the "streak is 0 exactly when the status changed"
biconditional fails — a repeat online observation at the very timestamp of
the previous check leaves the streak at 0 with no status change. -/
theorem streak_zero_iff_change_counterexample :
    ¬(((computeDurations sampleOnline 0 true 0).currentStreakSeconds = 0) ↔
        (if (true : Bool) then Status.online else .offline) ≠
          sampleOnline.lastStatus) := by
  rw [computeDurations_eq]
  simp [sampleOnline, defaultStatus, deltaSecondsFn]

/-- C5 amended: on a status change the streak is reset to 0 and
`lastStatusChange` is set to `now`; on a non-transition step the streak is
the previous streak plus the non-negative delta (so it never decreases)
and `lastStatusChange` is carried unchanged — but a zero streak does not
imply a change, since the previous streak and the delta can both be
zero. -/
theorem streak_and_change_amended (prev : Ledger) (now wc : Int) (b : Bool) :
    ((if b then Status.online else .offline) ≠ prev.lastStatus →
      (computeDurations prev now b wc).currentStreakSeconds = 0) ∧
    ((if b then Status.online else .offline) = prev.lastStatus →
      (computeDurations prev now b wc).currentStreakSeconds =
        prev.currentStreakSeconds + deltaSecondsFn prev.lastChecked now ∧
      prev.currentStreakSeconds ≤
        (computeDurations prev now b wc).currentStreakSeconds) ∧
    ((computeDurations prev now b wc).lastStatusChange ≠
        prev.lastStatusChange →
      (if b then Status.online else .offline) ≠ prev.lastStatus) ∧
    ((if b then Status.online else .offline) ≠ prev.lastStatus →
      (computeDurations prev now b wc).lastStatusChange = some now) := by
  rw [computeDurations_eq]
  dsimp only
  refine ⟨?_, ?_, ?_, ?_⟩
  · intro hne; rw [if_pos hne]
  · intro heq
    rw [if_neg (not_ne_iff.mpr heq)]
    exact ⟨rfl, by have := deltaSecondsFn_nonneg prev.lastChecked now; linarith⟩
  · intro hne
    by_contra heq
    rw [if_neg (not_ne_iff.mpr heq)] at hne
    exact hne rfl
  · intro hne; rw [if_pos hne]

/-- Witness for the amended C5 at the concrete offline→online transition
from `sampleOffline`. -/
theorem streak_and_change_amended_witness :
    (computeDurations sampleOffline 60000 true 7).currentStreakSeconds = 0 ∧
    (computeDurations sampleOffline 60000 true 7).lastStatusChange =
      some 60000 :=
  ⟨(streak_and_change_amended sampleOffline 60000 7 true).1 (by decide),
   (streak_and_change_amended sampleOffline 60000 7 true).2.2.2 (by decide)⟩

/-- C8 counterexample: the incident id is `Date.now()`, an ambient
wall-clock read — two invocations with identical `(prev, now, observation)`
but different wall clocks return different ledgers (different incident
ids), so the engine is not a pure function of the three arguments alone. -/
theorem apply_not_wallclock_free :
    computeDurations sampleOffline 60000 true 1 ≠
      computeDurations sampleOffline 60000 true 2 := by
  intro h
  have h2 := congrArg
    (fun l : Ledger => l.downtimeIncidents.map Incident.id) h
  rw [computeDurations_eq, computeDurations_eq] at h2
  simp [incidentCondB, sampleOffline, defaultStatus, newIncident] at h2

/-- C8 amended: the engine is a deterministic pure function of
`(prev, now, observation)` together with the wall clock read for the
incident id; apart from the id of a freshly recorded incident the result
does not depend on the wall clock at all, and on steps that record no
incident it is wholly independent of it. -/
theorem apply_pure_up_to_incident_id (prev : Ledger) (now : Int) (b : Bool)
    (wc wc2 : Int) :
    stripIds (computeDurations prev now b wc) =
      stripIds (computeDurations prev now b wc2) ∧
    (incidentCondB prev now b = false →
      computeDurations prev now b wc = computeDurations prev now b wc2) := by
  constructor
  · rw [computeDurations_eq prev now b wc, computeDurations_eq prev now b wc2]
    unfold stripIds
    by_cases hi : incidentCondB prev now b = true
    · simp [hi, newIncident]
    · simp [hi]
  · intro hi
    rw [computeDurations_eq prev now b wc, computeDurations_eq prev now b wc2,
        hi]
    simp

/-- Witness for the amended C8: id-stripped results agree on a concrete
incident-recording step, and a concrete non-incident step is wholly
wall-clock independent. -/
theorem apply_pure_up_to_incident_id_witness :
    stripIds (computeDurations sampleOffline 60000 true 1) =
      stripIds (computeDurations sampleOffline 60000 true 2) ∧
    computeDurations sampleOnline 60000 true 1 =
      computeDurations sampleOnline 60000 true 2 :=
  ⟨(apply_pure_up_to_incident_id sampleOffline 60000 true 1 2).1,
   (apply_pure_up_to_incident_id sampleOnline 60000 true 1 2).2 (by decide)⟩

/-- C3 counterexample: the frontend success path never clears `error` — an
offline→online probe cycle leaves the stale error string from the outage on
the now-online ledger. -/
theorem stale_error_after_recovery :
    (checkServerStatus sampleOffline 60000 (.success 42)).lastStatus =
      Status.online ∧
    (checkServerStatus sampleOffline 60000 (.success 42)).error =
      some "timeout" := by
  constructor <;>
    simp [checkServerStatus, computeDurationsFrontend_eq, sampleOffline,
      defaultStatus]

/-- An online ledger still carrying the latency measured at its last
check. -/
def sampleStaleLat : Ledger := { sampleOnline with latency := some 42 }

/-- C3 amended: every probe cycle sets `lastChecked = now`, but latency
and error handling is per cycle, not as claimed.  Frontend
(`checkServerStatus`): an online observation records the measured latency
yet leaves the previous `error` untouched (a stale error survives
recovery); an offline observation sets `latency` to null and `error` to
the failure reason.  Backend (`main` of `part_002`): an online observation
records the measured latency; an offline observation keeps the stale
`latency` from the last online check (the `if (latency !== null)` guard
skips the write), and no `error` field is ever written — the previous
value is carried unchanged in both cases. -/
theorem cycle_latency_error (prev : Ledger) (now : Int) (p : ProbeOutcome)
    (r : PingResult) (wc : Int) :
    (checkServerStatus prev now p).lastChecked = some now ∧
    (backendCycle prev now r wc).lastChecked = some now ∧
    (∀ lat, p = .success lat →
      (checkServerStatus prev now p).latency = some lat ∧
      (checkServerStatus prev now p).error = prev.error) ∧
    (∀ ab, p = .failure ab →
      (checkServerStatus prev now p).latency = none ∧
      (checkServerStatus prev now p).error =
        some (if ab then "timeout" else "connection failed")) ∧
    (∀ lat, r = .connected lat →
      (backendCycle prev now r wc).latency = some lat ∧
      (backendCycle prev now r wc).error = prev.error) ∧
    (∀ msg, r = .failed msg →
      (backendCycle prev now r wc).latency = prev.latency ∧
      (backendCycle prev now r wc).error = prev.error) := by
  cases p <;> cases r <;>
    simp [checkServerStatus, backendCycle, computeDurationsFrontend_eq,
      computeDurations_eq]

/-- Witness for the amended C3 at concrete cycles: a timed-out frontend
probe yields a null latency and the timeout error, a successful frontend
probe records its latency, and a failed backend probe leaves the stale
latency of the last online check in place while a successful one
overwrites it. -/
theorem cycle_latency_error_witness :
    (checkServerStatus sampleOnline 60000 (.failure true)).latency = none ∧
    (checkServerStatus sampleOnline 60000 (.failure true)).error =
      some "timeout" ∧
    (checkServerStatus sampleOnline 60000 (.success 42)).latency = some 42 ∧
    (backendCycle sampleStaleLat 60000 (.failed "timeout") 0).latency =
      some 42 ∧
    (backendCycle sampleStaleLat 60000 (.connected 7) 0).latency = some 7 :=
  ⟨((cycle_latency_error sampleOnline 60000 (.failure true)
      (.failed "timeout") 0).2.2.2.1 true rfl).1,
   ((cycle_latency_error sampleOnline 60000 (.failure true)
      (.failed "timeout") 0).2.2.2.1 true rfl).2,
   ((cycle_latency_error sampleOnline 60000 (.success 42)
      (.connected 42) 0).2.2.1 42 rfl).1,
   ((cycle_latency_error sampleStaleLat 60000 (.failure true)
      (.failed "timeout") 0).2.2.2.2.2 "timeout" rfl).1,
   ((cycle_latency_error sampleStaleLat 60000 (.success 7)
      (.connected 7) 0).2.2.2.2.1 7 rfl).1⟩

/-- C9: `readStatusFile` never raises — it is total over the store states,
returns the parsed ledger when one is obtained, and substitutes the
structurally valid all-default ledger (unknown status, null timestamps,
zero totals, empty incident list, zero outages) when the store is absent
or its text is corrupt. -/
theorem load_never_raises :
    (∀ l, readStatusFile (.valid l) = l) ∧
    readStatusFile .absent = defaultStatus ∧
    (∀ raw, readStatusFile (.corrupt raw) = defaultStatus) ∧
    defaultStatus.lastStatus = Status.unknown ∧
    defaultStatus.lastOnline = none ∧
    defaultStatus.lastStatusChange = none ∧
    defaultStatus.lastChecked = none ∧
    defaultStatus.currentStreakSeconds = 0 ∧
    defaultStatus.totalUpSeconds = 0 ∧
    defaultStatus.totalDownSeconds = 0 ∧
    defaultStatus.downtimeIncidents = [] ∧
    defaultStatus.totalOutages = 0 :=
  ⟨fun _ => rfl, rfl, fun _ => rfl, rfl, rfl, rfl, rfl, rfl, rfl, rfl, rfl,
   rfl⟩
